import Mathlib

/-!
# Weather dashboard (`script.js`): place resolution and weather rendering

A shallow embedding of the decision logic of `script.js`:

* the Nominatim label formatter `formatPlaceFromNominatim`, the candidate
  choice of `searchCityWeather` and the reverse-geocoding fallback of
  `getCityNameForCoords`;
* the unit conversion `convertTemp`, the weather-code tables, the renderer
  `displayWeather`, the fetch wrapper `getWeather` and the unit-toggle handler.

Modelling conventions.

* A string-valued property of a parsed JSON object is an `Option String`;
  `none` stands for an absent property. The `address` object is kept as the
  list of its `(key, value)` members in the order the JSON text lists them.
* JavaScript numbers are IEEE 754 binary64 values (`JsNumber`): a finite value
  is a sign and a whole number of units of `2 ^ (-1074)`, and product,
  quotient and sum round to nearest, ties to even. `convertTemp` is generic in
  the number type; its numerical behaviour is stated at `JsNumber`.
* The rendering model, whose statements depend only on which values are read
  and written, takes the temperatures of a response as exact rationals, with
  `Math.round` as `⌊x + 1/2⌋`. A value that JavaScript would render as `NaN`
  (arithmetic on `undefined`) is `none` there.
* The two global variables `isCelsius` and `currentData` and the page
  elements the script writes to form an explicit state record; a `TypeError`
  thrown inside `displayWeather` is an explicit `thrown` completion that
  carries the state reached at the point of the throw.
* Host functions that the script calls but does not define (the weekday
  formatter, `Number.prototype.toFixed`) are parameters.
-/

namespace WeatherDashboard

/-! ## JavaScript helpers -/

/-- JavaScript truthiness of a string-valued slot: an absent value and the
empty string are falsy, every other string is truthy. -/
def truthy : Option String → Bool
  | none => false
  | some s => s != ""

/-- The expression `a || b` where `b` is a string: `a` when truthy, else `b`. -/
def jsOrElse (a : Option String) (b : String) : String :=
  match a with
  | some s => if s != "" then s else b
  | none => b

/-- Template-literal rendering of a slot whose absent value is `null`. -/
def templateNull : Option String → String
  | none => "null"
  | some s => s

/-- Template-literal rendering of a slot whose absent value is `undefined`. -/
def templateUndefined : Option String → String
  | none => "undefined"
  | some s => s

/-- Model of `String.prototype.toLowerCase`, restricted to the ASCII letters. No
character outside `A`..`Z` lower-cases to a letter of `city`, `town`,
`village` or `municipality`, so the comparisons made by the script agree. -/
def toLowerCase (s : String) : String := String.mk (s.data.map Char.toLower)

/-- The code points removed by `String.prototype.trim`: ECMAScript white space
and line terminators. -/
def isJsWhiteSpace (c : Char) : Bool :=
  let n := c.toNat
  n == 0x09 || n == 0x0A || n == 0x0B || n == 0x0C || n == 0x0D || n == 0x20
    || n == 0xA0 || n == 0x1680 || (0x2000 ≤ n && n ≤ 0x200A) || n == 0x2028
    || n == 0x2029 || n == 0x202F || n == 0x205F || n == 0x3000 || n == 0xFEFF

/-- Model of `String.prototype.trim`. -/
def trim (s : String) : String :=
  String.mk ((s.data.dropWhile isJsWhiteSpace).reverse.dropWhile isJsWhiteSpace).reverse

/-- Segments of a character list cut at every comma; never empty. -/
def splitChars : List Char → List (List Char)
  | [] => [[]]
  | c :: cs =>
    match splitChars cs with
    | [] => [[]]
    | seg :: rest => if c = ',' then [] :: seg :: rest else (c :: seg) :: rest

/-- The call `s.split(",")`. -/
def split (s : String) : List String := (splitChars s.data).map String.mk

/-- A parsed JSON object with string members, in the order of the JSON text. -/
abbrev JsObject := List (String × String)

/-- Property read `o[k]`. When the JSON text repeats a key, `JSON.parse`
keeps the last member. -/
def getProp : JsObject → String → Option String
  | [], _ => none
  | (k', v) :: rest, k =>
    match getProp rest k with
    | some w => some w
    | none => if k' = k then some v else none

/-! ## Nominatim results and the label formatter -/

/-- A Nominatim result object (search item or reverse result). -/
structure NominatimResult where
  type : Option String := none
  address : Option JsObject := none
  name : Option String := none
  display_name : Option String := none
  lat : Option String := none
  lon : Option String := none
  deriving DecidableEq, Repr

/-- Address keys probed, in order, for the place name. -/
def PLACE_KEYS : List String :=
  ["city", "town", "village", "hamlet", "municipality", "county", "state"]

/-- The loop `for (const k of PLACE_KEYS) if (address[k]) ... break`, started
with `place = null`. -/
def probePlaceKeys (address : JsObject) : List String → Option String
  | [] => none
  | k :: ks =>
    if truthy (getProp address k) then getProp address k else probePlaceKeys address ks

/-- The value of the local `place` of `formatPlaceFromNominatim` when the
final `return` is reached. -/
def placeOf (obj : NominatimResult) : Option String :=
  let address := obj.address.getD []
  let place := probePlaceKeys address PLACE_KEYS
  let place := if !truthy place && truthy obj.name then obj.name else place
  let place :=
    if !truthy place && truthy obj.display_name then
      some (trim ((split (obj.display_name.getD "")).headD ""))
    else place
  place

/-- The value of the local `country` of `formatPlaceFromNominatim`. -/
def countryOf (obj : NominatimResult) : Option String :=
  let address := obj.address.getD []
  if truthy (getProp address "country") then getProp address "country"
  else if truthy obj.display_name then
    some (trim ((split (obj.display_name.getD "")).getLastD ""))
  else none

/-- The function `formatPlaceFromNominatim(obj)`; the argument `none` is a falsy `obj`,
the result `none` is `null`. -/
def formatPlaceFromNominatim : Option NominatimResult → Option String
  | none => none
  | some obj =>
    let place := placeOf obj
    let country := countryOf obj
    if !truthy place && !truthy country then none
    else if truthy country then some (templateNull place ++ ", " ++ templateNull country)
    else place

/-! ## Search: choice of a candidate -/

/-- First predicate of `searchCityWeather`: the lower-cased `type` is one of
the four settlement types. -/
def typeMatches (r : NominatimResult) : Bool :=
  let t := toLowerCase (jsOrElse r.type "")
  t == "city" || t == "town" || t == "village" || t == "municipality"

/-- Second predicate of `searchCityWeather`: an address with a truthy `city`,
`town`, `village` or `hamlet`. -/
def addressMatches (r : NominatimResult) : Bool :=
  match r.address with
  | none => false
  | some a =>
    truthy (getProp a "city") || truthy (getProp a "town")
      || truthy (getProp a "village") || truthy (getProp a "hamlet")

/-- The candidate bound to `chosen`; `none` on the empty result list, where
the script reports that the city was not found. -/
def chooseCandidate (results : List NominatimResult) : Option NominatimResult :=
  match results.find? typeMatches with
  | some r => some r
  | none =>
    match results.find? addressMatches with
    | some r => some r
    | none => results.head?

/-- The label `formatPlaceFromNominatim(chosen) || chosen.display_name ||`
followed by the template of `lat` and `lon`. -/
def searchLabel (chosen : NominatimResult) : String :=
  jsOrElse (formatPlaceFromNominatim (some chosen))
    (jsOrElse chosen.display_name
      (templateUndefined chosen.lat ++ ", " ++ templateUndefined chosen.lon))

/-- What `searchCityWeather` hands to `getWeather`: `lat`, `lon` and the
label of the chosen candidate. -/
def searchCityWeather (results : List NominatimResult) :
    Option (Option String × Option String × String) :=
  (chooseCandidate results).map fun chosen => (chosen.lat, chosen.lon, searchLabel chosen)

/-! ## Reverse geocoding -/

/-- Outcomes of the request made by `nominatimReverse`. -/
inductive ReverseOutcome where
  | transportFailure
  | badStatus
  | body (j : Option NominatimResult)
  deriving DecidableEq, Repr

/-- The function `nominatimReverse`: a rejected fetch and a response that is not `ok` both
throw; otherwise the parsed body is returned. -/
def nominatimReverse : ReverseOutcome → Except String (Option NominatimResult)
  | .transportFailure => .error "fetch rejected"
  | .badStatus => .error "Nominatim reverse failed"
  | .body j => .ok j

/-- The coordinate label built from `toFixed(2)` of both coordinates. -/
def coordLabel {Num : Type} (toFixed : Num → Nat → String) (lat lon : Num) : String :=
  toFixed lat 2 ++ ", " ++ toFixed lon 2

/-- The function `getCityNameForCoords(lat, lon)`, for the host function `toFixed`: the
`try` block and its `catch` handler. A result `.error` would be an exception
that leaves the function. -/
def getCityNameForCoords {Num : Type} (toFixed : Num → Nat → String)
    (outcome : ReverseOutcome) (lat lon : Num) : Except String String :=
  tryCatch
    (do
      let j ← nominatimReverse outcome
      let place := formatPlaceFromNominatim j
      pure (jsOrElse place (coordLabel toFixed lat lon)))
    (fun _ => pure (coordLabel toFixed lat lon))

/-- Decimal rendering with `f` fraction digits of a number whose value is the
integer `n`, as `toFixed` prints integers below `10 ^ 21`. -/
def toFixedInt (n : Int) (f : Nat) : String :=
  toString n ++ (if f = 0 then "" else "." ++ String.mk (List.replicate f '0'))

/-! ## JavaScript numbers: IEEE 754 binary64 -/

/-- A JavaScript number. Every finite binary64 value is an integer multiple of
the smallest subnormal `2 ^ (-1074)`: `fin neg units` is the value
`± units * 2 ^ (-1074)`, with `neg` the sign bit (so `fin true 0` is `-0`)
and `units` below `2 ^ 2098` (the unit count of `2 ^ 1024`). -/
inductive JsNumber where
  | nan
  | inf (neg : Bool)
  | fin (neg : Bool) (units : Nat)
  deriving DecidableEq, Repr

/-- The quotient `a / b` of naturals rounded to the nearest integer, ties to
the even one. -/
def roundNearestEven (a b : Nat) : Nat :=
  let q := a / b
  let r := a % b
  if 2 * r < b then q else if b < 2 * r then q + 1 else if q % 2 = 0 then q else q + 1

/-- Binary search for the position of the leading bit, over the listed
widths and with the count so far in `acc`. -/
def floorLog2Aux : List Nat → Nat → Nat → Nat
  | [], _, acc => acc
  | k :: ks, n, acc =>
    if n >>> k = 0 then floorLog2Aux ks n acc else floorLog2Aux ks (n >>> k) (acc + k)

/-- The position of the leading bit of `n`, that is `⌊log₂ n⌋` (0 for `n = 0`),
for `n` below `2 ^ 4096`. -/
def floorLog2 (n : Nat) : Nat :=
  floorLog2Aux [2048, 1024, 512, 256, 128, 64, 32, 16, 8, 4, 2, 1] n 0

/-- Rounding to binary64, round to nearest and ties to even: the result for
the exact magnitude `a / b`, counted in units of `2 ^ (-1074)`, and the sign
`neg`. A magnitude of `2 ^ 52` units or more is rounded to 53 significant
bits (`shift` is the number of low bits dropped), a smaller one to a whole
number of units (the subnormal range); a rounded magnitude of `2 ^ 2098`
units, that is `2 ^ 1024`, or more is an infinity. -/
def roundUnits (neg : Bool) (a b : Nat) : JsNumber :=
  let shift := floorLog2 (a / b) - 52
  let n := roundNearestEven a (b <<< shift)
  if n <<< shift < 1 <<< 2098 then .fin neg (n <<< shift) else .inf neg

/-- The product `x * y` of two numbers. -/
def JsNumber.mul : JsNumber → JsNumber → JsNumber
  | .nan, _ => .nan
  | _, .nan => .nan
  | .inf s, .inf t => .inf (xor s t)
  | .inf s, .fin t u => if u = 0 then .nan else .inf (xor s t)
  | .fin s u, .inf t => if u = 0 then .nan else .inf (xor s t)
  | .fin s u, .fin t v => roundUnits (xor s t) (u * v) (1 <<< 1074)

/-- The quotient `x / y` of two numbers. -/
def JsNumber.div : JsNumber → JsNumber → JsNumber
  | .nan, _ => .nan
  | _, .nan => .nan
  | .inf _, .inf _ => .nan
  | .inf s, .fin t _ => .inf (xor s t)
  | .fin s _, .inf t => .fin (xor s t) 0
  | .fin s u, .fin t v =>
    if v = 0 then (if u = 0 then .nan else .inf (xor s t))
    else roundUnits (xor s t) (u <<< 1074) v

/-- The sum `x + y` of two numbers; an exact zero sum of opposite signs is
`+0`. -/
def JsNumber.add : JsNumber → JsNumber → JsNumber
  | .nan, _ => .nan
  | _, .nan => .nan
  | .inf s, .inf t => if s = t then .inf s else .nan
  | .inf s, .fin _ _ => .inf s
  | .fin _ _, .inf t => .inf t
  | .fin s u, .fin t v =>
    if s = t then roundUnits s (u + v) 1
    else if u = v then .fin false 0
    else if v < u then roundUnits s (u - v) 1
    else roundUnits t (v - u) 1

instance : Mul JsNumber := ⟨JsNumber.mul⟩

instance : Div JsNumber := ⟨JsNumber.div⟩

instance : Add JsNumber := ⟨JsNumber.add⟩

/-- The number denoted by the decimal literal with value `num / den` and a
minus sign when `neg`: the nearest binary64 value, as a numeric literal of the
script or of a JSON response is read. -/
def JsNumber.ofDecimal (neg : Bool) (num den : Nat) : JsNumber :=
  if den = 0 then .nan else roundUnits neg (num <<< 1074) den

/-- The number denoted by a natural-number literal. -/
def JsNumber.ofNat (n : Nat) : JsNumber := roundUnits false (n <<< 1074) 1

/-- The number denoted by an integer literal. -/
def JsNumber.ofInt (z : Int) : JsNumber :=
  roundUnits (decide (z < 0)) (z.natAbs <<< 1074) 1

instance (n : Nat) : OfNat JsNumber n := ⟨JsNumber.ofNat n⟩

/-- The exact value of a finite number. -/
def JsNumber.toRat : JsNumber → Option ℚ
  | .fin neg units => some ((if neg then -1 else 1) * (units : ℚ) / 2 ^ 1074)
  | _ => none

/-- The unit count of a finite number (0 for the others). -/
def JsNumber.units : JsNumber → Nat
  | .fin _ units => units
  | _ => 0

/-! ## Weather codes and unit conversion -/

/-- The table `weatherDescriptions`. -/
def weatherDescriptions : List (Int × String) :=
  [(0, "Clear sky"), (1, "Mainly clear"), (2, "Partly cloudy"), (3, "Overcast"),
   (45, "Fog"), (48, "Depositing rime fog"),
   (51, "Light drizzle"), (53, "Moderate drizzle"), (55, "Dense drizzle"),
   (56, "Light freezing drizzle"), (57, "Dense freezing drizzle"),
   (61, "Slight rain"), (63, "Moderate rain"), (65, "Heavy rain"),
   (66, "Light freezing rain"), (67, "Heavy freezing rain"),
   (71, "Slight snow fall"), (73, "Moderate snow fall"), (75, "Heavy snow fall"),
   (77, "Snow grains"),
   (80, "Slight rain showers"), (81, "Moderate rain showers"), (82, "Violent rain showers"),
   (85, "Slight snow showers"), (86, "Heavy snow showers"),
   (95, "Thunderstorm"), (96, "Thunderstorm with slight hail"),
   (99, "Thunderstorm with heavy hail")]

/-- The read `weatherDescriptions[code]`; `none` is `undefined`. -/
def descriptionEntry (code : Int) : Option String := weatherDescriptions.lookup code

/-- The rendered description `weatherDescriptions[code] || "Unknown"`. -/
def describeCode (code : Int) : String := jsOrElse (descriptionEntry code) "Unknown"

/-- The icon returned by the last line of `getWeatherEmoji`. The string
literals of the icons are the ones stored in the source file. -/
def placeholderEmoji : String := "\u00e2\u00ac\u0153"

/-- The function `getWeatherEmoji(code)`. -/
def getWeatherEmoji (code : Int) : String :=
  if [0].contains code then "\u00e2\u02dc\u20ac\u00ef\u00b8"
  else if [1].contains code then "\u00f0\u0178\u0152\u00a4\u00ef\u00b8"
  else if [2].contains code then "\u00e2\u203a\u2026"
  else if [3].contains code then "\u00e2\u02dc\u00ef\u00b8"
  else if [45, 48].contains code then "\u00e2\u2013\u2018\u00e2\u2013\u2019\u00e2\u2013\u201c"
  else if [51, 53, 55, 56, 57].contains code then "\u00f0\u0178\u0152\u00a6\u00ef\u00b8"
  else if [61, 63, 65].contains code then "\u00f0\u0178\u0152\u00a7\u00ef\u00b8"
  else if [66, 67, 71, 73, 75, 77, 85, 86].contains code then "\u00e2\u201e\u00ef\u00b8"
  else if [80, 81, 82, 83].contains code then "\u00e2\u02dc\u201d"
  else if [95, 96, 99].contains code then "\u00e2\u0161\u00a1"
  else placeholderEmoji

/-- The function `convertTemp(tempC)` under the global flag `isCelsius`, for
any number type with the three operations and the three literals. -/
def convertTemp {α : Type} [Mul α] [Div α] [Add α] [OfNat α 9] [OfNat α 5] [OfNat α 32]
    (isCelsius : Bool) (tempC : α) : α :=
  if isCelsius then tempC else (tempC * 9) / 5 + 32

/-- Model of `Math.round`: the nearest integer, ties towards positive infinity. -/
def round (x : ℚ) : Int := ⌊x + 1 / 2⌋

/-- The value `Math.round(convertTemp(t))` for a value read from the response; an
absent value gives `NaN`, modelled by `none`. -/
def roundedTemp (isCelsius : Bool) (t : Option ℚ) : Option Int :=
  t.map fun c => round (convertTemp isCelsius c)

/-- Rendering of a rounded number in a template literal. -/
def numberText : Option Int → String
  | none => "NaN"
  | some n => toString n

/-- The icon of a weather code read from the response; `undefined` is in
none of the lists of `getWeatherEmoji`. -/
def emojiOf : Option Int → String
  | none => placeholderEmoji
  | some code => getWeatherEmoji code

/-- The description of a weather code read from the response. -/
def descriptionOf : Option Int → String
  | none => "Unknown"
  | some code => describeCode code

/-! ## Weather responses -/

/-- The member `current_weather` of a weather response. -/
structure CurrentWeather where
  temperature : Option ℚ := none
  weathercode : Option Int := none
  windspeed : Option ℚ := none
  deriving DecidableEq

/-- The member `hourly` of a weather response. -/
structure Hourly where
  relativehumidity_2m : Option (List Int) := none
  deriving DecidableEq

/-- The member `daily` of a weather response: series indexed by day. -/
structure Daily where
  time : Option (List String) := none
  temperature_2m_max : Option (List ℚ) := none
  temperature_2m_min : Option (List ℚ) := none
  weathercode : Option (List Int) := none
  deriving DecidableEq

/-- A parsed weather response; every member may be missing. -/
structure WeatherData where
  current_weather : Option CurrentWeather := none
  hourly : Option Hourly := none
  daily : Option Daily := none
  deriving DecidableEq

/-! ## Page state and rendering -/

/-- One forecast card: weekday name, icon, rounded minimum and maximum. -/
structure Card where
  dayName : String
  emoji : String
  min : Option Int
  max : Option Int
  deriving DecidableEq

/-- The page elements written by the script. -/
structure Dom where
  location : String
  temp : String
  desc : String
  humidity : String
  wind : String
  forecast : List Card
  toggleText : String
  deriving DecidableEq

/-- The globals `isCelsius` and `currentData` together with the page. -/
structure AppState where
  isCelsius : Bool
  currentData : Option WeatherData
  dom : Dom
  deriving DecidableEq

/-- How a call of `displayWeather` ends: normally, or by a `TypeError`; both
carry the state reached. -/
inductive Completion where
  | normal (s : AppState)
  | thrown (s : AppState)
  deriving DecidableEq

/-- The state a completion carries. -/
def Completion.state : Completion → AppState
  | .normal s => s
  | .thrown s => s

/-- The constant `daysToShow`. -/
def daysToShow : Nat := 3

/-- The body of the forecast loop at day index `i`, up to the creation of the
card; `none` when a read `data.daily.X[i]` throws because `data.daily` or the
series `X` is missing. An index past the end of a series reads `undefined`. -/
def forecastCard (weekday : Option String → String) (isCelsius : Bool)
    (daily : Option Daily) (i : Nat) : Option Card :=
  match daily with
  | none => none
  | some d =>
    match d.time, d.temperature_2m_max, d.temperature_2m_min, d.weathercode with
    | some time, some maxs, some mins, some codes =>
      some { dayName := weekday time[i]?
             emoji := emojiOf codes[i]?
             min := roundedTemp isCelsius mins[i]?
             max := roundedTemp isCelsius maxs[i]? }
    | _, _, _, _ => none

/-- The forecast loop over the day indices still to visit, with the cards
appended so far; the flag tells whether the loop threw. -/
def forecastLoop (weekday : Option String → String) (isCelsius : Bool)
    (daily : Option Daily) : List Nat → List Card → List Card × Bool
  | [], cards => (cards, false)
  | i :: rest, cards =>
    match forecastCard weekday isCelsius daily i with
    | some card => forecastLoop weekday isCelsius daily rest (cards ++ [card])
    | none => (cards, true)

/-- The local `humidity` of `displayWeather`, as text. -/
def humidityText (data : WeatherData) : String :=
  match data.hourly with
  | none => "--"
  | some h =>
    match h.relativehumidity_2m with
    | none => "--"
    | some [] => "--"
    | some (x :: _) => toString x

/-- The text written to the temperature element. -/
def tempText (isCelsius : Bool) (weather : CurrentWeather) : String :=
  numberText (roundedTemp isCelsius weather.temperature)
    ++ " \u00c2\u00b0" ++ (if isCelsius then "C" else "F")

/-- The text written to the description element. -/
def descText (weather : CurrentWeather) : String :=
  emojiOf weather.weathercode ++ " " ++ descriptionOf weather.weathercode

/-- The text written to the wind element: `Math.round(weather.windspeed ?? 0)`. -/
def windText (weather : CurrentWeather) : String :=
  toString (round (weather.windspeed.getD 0))

/-- The function `displayWeather(data, place)`, statement by statement. -/
def displayWeather (weekday : Option String → String) (data : WeatherData) (place : String)
    (s : AppState) : Completion :=
  let s1 : AppState := { s with currentData := some data }
  match data.current_weather with
  | none => .thrown s1
  | some weather =>
    let dom1 : Dom :=
      { s1.dom with
        temp := tempText s1.isCelsius weather
        desc := descText weather
        humidity := humidityText data
        wind := windText weather
        location := place
        forecast := [] }
    let loop := forecastLoop weekday s1.isCelsius data.daily (List.range' 1 daysToShow) []
    let s2 : AppState := { s1 with dom := { dom1 with forecast := loop.1 } }
    if loop.2 then .thrown s2 else .normal s2

/-- Outcomes of the request made by `getWeather`. -/
inductive WeatherOutcome where
  | transportFailure
  | badStatus
  | body (data : WeatherData)
  deriving DecidableEq

/-- The `catch` block of `getWeather`. -/
def paintFailure (s : AppState) : AppState :=
  { s with dom := { s.dom with location := "Failed to load.", temp := "--", desc := "---" } }

/-- The function `getWeather(lat, lon, place)` for a given outcome of its request. -/
def getWeather (weekday : Option String → String) (outcome : WeatherOutcome) (place : String)
    (s : AppState) : AppState :=
  match outcome with
  | .body data =>
    match displayWeather weekday data place s with
    | .normal s1 => s1
    | .thrown s1 => paintFailure s1
  | _ => paintFailure s

/-- The click handler of the unit toggle; a throw of `displayWeather` ends
the handler and keeps the writes made before it. -/
def toggleUnit (weekday : Option String → String) (s : AppState) : AppState :=
  let isCelsius := !s.isCelsius
  let s1 : AppState :=
    { s with
      isCelsius := isCelsius
      dom := { s.dom with
               toggleText := if isCelsius then "Switch to \u00c2\u00b0F"
                             else "Switch to \u00c2\u00b0C" } }
  match s1.currentData with
  | some data => (displayWeather weekday data s1.dom.location s1).state
  | none => s1

/-- The events that change the weather state. -/
inductive Event where
  | weather (outcome : WeatherOutcome) (place : String)
  | toggle
  deriving DecidableEq

/-- One event applied to a state. -/
def step (weekday : Option String → String) (s : AppState) : Event → AppState
  | .weather outcome place => getWeather weekday outcome place s
  | .toggle => toggleUnit weekday s

/-- A sequence of events applied in order. -/
def run (weekday : Option String → String) (s : AppState) (events : List Event) : AppState :=
  events.foldl (step weekday) s

/-- The state when the script starts, for the page `dom` of the document. -/
def initialState (dom : Dom) : AppState :=
  { isCelsius := true, currentData := none, dom := dom }

/-- A snapshot is fully populated when the current weather and the four
daily series are present and the series cover the rendered days. -/
def fullyPopulated (data : WeatherData) : Bool :=
  match data.current_weather, data.daily with
  | some _, some d =>
    match d.time, d.temperature_2m_max, d.temperature_2m_min, d.weathercode with
    | some time, some maxs, some mins, some codes =>
      decide (daysToShow < time.length) && decide (daysToShow < maxs.length)
        && decide (daysToShow < mins.length) && decide (daysToShow < codes.length)
    | _, _, _, _ => false
  | _, _ => false

/-! ## The selection rule in the words of the specification -/

/-- Two strings are equal when the case of ASCII letters is ignored. -/
def equalIgnoringCase (a b : String) : Bool :=
  a.data.map Char.toLower == b.data.map Char.toLower

/-- Rule 1 of the specification: the `type`, compared case-insensitively, is
one of city, town, village, municipality. -/
def specTypeMatches (r : NominatimResult) : Bool :=
  match r.type with
  | none => false
  | some t => ["city", "town", "village", "municipality"].any (equalIgnoringCase t)

/-- Rule 2 of the specification: the structured address holds a non-empty
city, town, village or hamlet. -/
def specAddressMatches (r : NominatimResult) : Bool :=
  match r.address with
  | none => false
  | some a =>
    ["city", "town", "village", "hamlet"].any fun k =>
      match getProp a k with
      | none => false
      | some v => v != ""

/-! ## The place name in the words of the specification -/

/-- The first non-empty value among the address keys city, town, village,
hamlet, municipality, county, state, in that order. -/
def specFirstAddressValue (a : JsObject) : Option String :=
  if truthy (getProp a "city") then getProp a "city"
  else if truthy (getProp a "town") then getProp a "town"
  else if truthy (getProp a "village") then getProp a "village"
  else if truthy (getProp a "hamlet") then getProp a "hamlet"
  else if truthy (getProp a "municipality") then getProp a "municipality"
  else if truthy (getProp a "county") then getProp a "county"
  else if truthy (getProp a "state") then getProp a "state"
  else none

/-- The text of `s` before its first comma (all of `s` when it has none). -/
def firstSegment (s : String) : String := String.mk (s.data.takeWhile fun c => c != ',')

/-- Place name of the specification: the first non-empty address value, else
the `name` field, else the trimmed first comma-delimited segment of
`display_name`. -/
def specPlace (obj : NominatimResult) : Option String :=
  match specFirstAddressValue (obj.address.getD []) with
  | some v => some v
  | none =>
    if truthy obj.name then obj.name
    else
      match obj.display_name with
      | none => none
      | some d => if d != "" then some (trim (firstSegment d)) else none

/-! ## A response without the daily series -/

/-- Current weather: 15 degrees Celsius, overcast, wind speed 10. -/
def partialWeather : CurrentWeather :=
  { temperature := some 15, weathercode := some 3, windspeed := some 10 }

/-- A weather response that holds the current weather and nothing else. -/
def partialResponse : WeatherData := { current_weather := some partialWeather }

/-- The responses of an event sequence that carry a body are all fully
populated. -/
def allResponsesPopulated : List Event → Bool
  | [] => true
  | .weather (.body data) _ :: rest => fullyPopulated data && allResponsesPopulated rest
  | _ :: rest => allResponsesPopulated rest

/-! ## Weather codes: tables -/

theorem lookup_eq_none_iff_not_mem_keys (code : Int) (table : List (Int × String)) :
    table.lookup code = none ↔ code ∉ table.map Prod.fst := by
  induction table with
  | nil => simp [List.lookup]
  | cons p rest ih =>
    obtain ⟨k, v⟩ := p
    by_cases h : code = k
    · subst h
      simp [List.lookup]
    · have hb : (code == k) = false := beq_eq_false_iff_ne.mpr h
      simp [List.lookup, hb, ih, h]

theorem descriptionEntry_eq_none_iff (code : Int) :
    descriptionEntry code = none ↔
      code ∉ [0, 1, 2, 3, 45, 48, 51, 53, 55, 56, 57, 61, 63, 65, 66, 67, 71, 73, 75, 77,
        80, 81, 82, 85, 86, 95, 96, 99] := by
  unfold descriptionEntry
  rw [lookup_eq_none_iff_not_mem_keys]
  rfl

theorem contains_eq_false_of_out_of_range (code : Int) (h : ¬ (0 ≤ code ∧ code ≤ 99))
    (l : List Int) (hl : ∀ x ∈ l, 0 ≤ x ∧ x ≤ 99) : l.contains code = false := by
  rw [Bool.eq_false_iff]
  intro hc
  have hm : code ∈ l := by simpa using hc
  exact h (hl code hm)

theorem getWeatherEmoji_placeholder_iff (code : Int) :
    getWeatherEmoji code = placeholderEmoji ↔
      code ∉ [0, 1, 2, 3, 45, 48, 51, 53, 55, 56, 57, 61, 63, 65, 66, 67, 71, 73, 75, 77,
        80, 81, 82, 83, 85, 86, 95, 96, 99] := by
  by_cases hr : 0 ≤ code ∧ code ≤ 99
  · obtain ⟨lo, hi⟩ := hr
    interval_cases code <;> decide
  · have hout := contains_eq_false_of_out_of_range code hr
    have hmem : code ∉ [0, 1, 2, 3, 45, 48, 51, 53, 55, 56, 57, 61, 63, 65, 66, 67, 71, 73, 75,
        77, 80, 81, 82, 83, 85, 86, 95, 96, 99] := by
      intro hm
      have hc := hout [0, 1, 2, 3, 45, 48, 51, 53, 55, 56, 57, 61, 63, 65, 66, 67, 71, 73, 75,
        77, 80, 81, 82, 83, 85, 86, 95, 96, 99] (by decide)
      rw [Bool.eq_false_iff] at hc
      exact hc (by simpa using hm)
    refine ⟨fun _ => hmem, fun _ => ?_⟩
    unfold getWeatherEmoji
    rw [hout [0] (by decide), hout [1] (by decide), hout [2] (by decide), hout [3] (by decide),
      hout [45, 48] (by decide), hout [51, 53, 55, 56, 57] (by decide),
      hout [61, 63, 65] (by decide), hout [66, 67, 71, 73, 75, 77, 85, 86] (by decide),
      hout [80, 81, 82, 83] (by decide), hout [95, 96, 99] (by decide)]
    rfl

/-- C8: a weather code without an entry in the description table renders the
description "Unknown"; its icon is the placeholder unless the code is 83, and
83 is the only code that pairs a missing description with a real icon (the
rain-shower one). A code with a description entry never gets the placeholder.
Code 9999 renders "Unknown" with the placeholder. -/
theorem unmapped_code_rendering (code : Int) :
    (descriptionEntry code = none →
      describeCode code = "Unknown" ∧
        (code ≠ 83 → getWeatherEmoji code = placeholderEmoji)) ∧
    ((descriptionEntry code = none ∧ getWeatherEmoji code ≠ placeholderEmoji) ↔ code = 83) ∧
    (descriptionEntry code ≠ none → getWeatherEmoji code ≠ placeholderEmoji) ∧
    (descriptionEntry 9999 = none ∧ describeCode 9999 = "Unknown" ∧
      getWeatherEmoji 9999 = placeholderEmoji) ∧
    (describeCode 83 = "Unknown" ∧ getWeatherEmoji 83 = getWeatherEmoji 80 ∧
      getWeatherEmoji 83 = "\u00e2\u02dc\u201d") := by
  have h1 := descriptionEntry_eq_none_iff code
  have h2 := getWeatherEmoji_placeholder_iff code
  simp only [List.mem_cons, List.mem_singleton, List.not_mem_nil, or_false, not_or] at h1 h2
  refine ⟨?_, ?_, ?_, by decide, by decide⟩
  · intro hn
    refine ⟨?_, fun h83 => h2.mpr ?_⟩
    · unfold describeCode
      rw [hn]
      rfl
    · have a := h1.mp hn
      omega
  · constructor
    · rintro ⟨hn, hp⟩
      have a := h1.mp hn
      by_contra h83
      exact hp (h2.mpr (by omega))
    · intro h
      subst h
      exact ⟨by decide, by decide⟩
  · intro hn hp
    have a := h2.mp hp
    exact hn (h1.mpr (by omega))

/-- Witness for C8 at the unmapped code 9999. -/
theorem unmapped_code_rendering_witness :
    descriptionEntry 9999 = none ∧ (9999 : Int) ≠ 83 ∧
      describeCode 9999 = "Unknown" ∧ getWeatherEmoji 9999 = placeholderEmoji :=
  ⟨by decide, by decide,
    ((unmapped_code_rendering 9999).1 (by decide)).1,
    ((unmapped_code_rendering 9999).1 (by decide)).2 (by decide)⟩

/-! ## Unit conversion in binary64 -/

section Binary64

set_option exponentiation.threshold 2200

theorem log2_eq_of_bounds (n e : Nat) (h1 : 2 ^ e ≤ n) (h2 : n < 2 ^ (e + 1)) :
    Nat.log2 n = e := by
  have hn : n ≠ 0 := by
    have : 0 < 2 ^ e := Nat.two_pow_pos _
    omega
  have a : e ≤ Nat.log2 n := (Nat.le_log2 hn).mpr h1
  have b : Nat.log2 n < e + 1 := (Nat.log2_lt hn).mpr h2
  omega

theorem log2_div_pow (n k : Nat) (h : 2 ^ k ≤ n) :
    Nat.log2 n = k + Nat.log2 (n / 2 ^ k) := by
  have hk : 0 < 2 ^ k := Nat.two_pow_pos _
  have hm : n / 2 ^ k ≠ 0 := by
    have : 1 ≤ n / 2 ^ k := (Nat.le_div_iff_mul_le hk).mpr (by simpa using h)
    omega
  have h1 : 2 ^ Nat.log2 (n / 2 ^ k) ≤ n / 2 ^ k := Nat.log2_self_le hm
  have h2 : n / 2 ^ k < 2 ^ (Nat.log2 (n / 2 ^ k) + 1) := Nat.lt_log2_self
  apply log2_eq_of_bounds
  · rw [pow_add]
    calc 2 ^ k * 2 ^ Nat.log2 (n / 2 ^ k) ≤ 2 ^ k * (n / 2 ^ k) := Nat.mul_le_mul_left _ h1
      _ ≤ n := Nat.mul_div_le n (2 ^ k)
  · have h3 : n < 2 ^ k * (n / 2 ^ k + 1) := by
      have := Nat.lt_mul_div_succ n hk
      simpa using this
    calc n < 2 ^ k * (n / 2 ^ k + 1) := h3
      _ ≤ 2 ^ k * 2 ^ (Nat.log2 (n / 2 ^ k) + 1) := Nat.mul_le_mul_left _ h2
      _ = 2 ^ (k + Nat.log2 (n / 2 ^ k) + 1) := by rw [← pow_add]; ring_nf

theorem log2Aux_step (k k2 : Nat) (hk2 : k2 = k + k) (rest : List Nat)
    (hrest : ∀ m acc, m < 2 ^ k → floorLog2Aux rest m acc = acc + Nat.log2 m)
    (n acc : Nat) (hn : n < 2 ^ k2) :
    floorLog2Aux (k :: rest) n acc = acc + Nat.log2 n := by
  subst hk2
  have hk : 0 < 2 ^ k := Nat.two_pow_pos _
  unfold floorLog2Aux
  rw [Nat.shiftRight_eq_div_pow]
  by_cases h : n / 2 ^ k = 0
  · rw [if_pos h]
    exact hrest n acc ((Nat.div_eq_zero_iff hk).mp h)
  · rw [if_neg h]
    have hle : 2 ^ k ≤ n := by
      by_contra hc
      exact h ((Nat.div_eq_zero_iff hk).mpr (by omega))
    have hlt : n / 2 ^ k < 2 ^ k := by
      rw [Nat.div_lt_iff_lt_mul hk, ← pow_add]
      exact hn
    rw [hrest _ _ hlt, log2_div_pow n k hle]
    omega

/-- The binary search agrees with the library logarithm. -/
theorem floorLog2_eq_natLog2 (n : Nat) (hn : n < 2 ^ 4096) : floorLog2 n = Nat.log2 n := by
  have h0 : ∀ m acc, m < 2 ^ 1 → floorLog2Aux [] m acc = acc + Nat.log2 m := by
    intro m acc hm
    have : m = 0 ∨ m = 1 := by omega
    rcases this with rfl | rfl <;> simp [floorLog2Aux, Nat.log2]
  have h1 := log2Aux_step 1 2 rfl [] h0
  have h2 := log2Aux_step 2 4 rfl _ h1
  have h4 := log2Aux_step 4 8 rfl _ h2
  have h8 := log2Aux_step 8 16 rfl _ h4
  have h16 := log2Aux_step 16 32 rfl _ h8
  have h32 := log2Aux_step 32 64 rfl _ h16
  have h64 := log2Aux_step 64 128 rfl _ h32
  have h128 := log2Aux_step 128 256 rfl _ h64
  have h256 := log2Aux_step 256 512 rfl _ h128
  have h512 := log2Aux_step 512 1024 rfl _ h256
  have h1024 := log2Aux_step 1024 2048 rfl _ h512
  have h2048 := log2Aux_step 2048 4096 rfl _ h1024
  have h := h2048 n 0 hn
  rw [Nat.zero_add] at h
  exact h

theorem roundNearestEven_mul (q d : Nat) (hd : 0 < d) : roundNearestEven (q * d) d = q := by
  unfold roundNearestEven
  simp only [Nat.mul_div_cancel q hd, Nat.mul_mod_left, Nat.mul_zero]
  rw [if_pos hd]

theorem pow_two_split (e a b : Nat) (h : e = a + b) : 2 ^ e = 2 ^ a * 2 ^ b := by
  rw [h, pow_add]

theorem mul_pow_lt_of_lt (K P e : Nat) (hP : P = 2 ^ 1074) (hK : K < 2 ^ 53)
    (he : 1127 ≤ e) : K * P < 2 ^ e := by
  have h1 : K * P < 2 ^ 53 * P := by
    exact Nat.mul_lt_mul_of_pos_right hK (hP ▸ Nat.two_pow_pos 1074)
  have h2 : 2 ^ 53 * P = 2 ^ 1127 := by
    rw [hP]
    exact (pow_two_split 1127 53 1074 rfl).symm
  have h3 : 2 ^ 1127 ≤ 2 ^ e := Nat.pow_le_pow_right (by decide) he
  omega

/-- Rounding is the identity on a magnitude that is a whole number below
`2 ^ 53`. -/
theorem roundUnits_exact (neg : Bool) (K b : Nat) (hK : K < 2 ^ 53) (hb : 0 < b) :
    roundUnits neg (K * 2 ^ 1074 * b) b = .fin neg (K * 2 ^ 1074) := by
  obtain ⟨P, hP⟩ := @exists_eq _ (2 ^ 1074)
  have hPpos : 0 < P := hP ▸ Nat.two_pow_pos 1074
  rw [← hP]
  have hlt : K * P < 2 ^ 2098 := mul_pow_lt_of_lt K P 2098 hP hK (by decide)
  unfold roundUnits
  simp only [Nat.mul_div_cancel _ hb, Nat.shiftLeft_eq, Nat.one_mul]
  by_cases h0 : K = 0
  · subst h0
    have hl : floorLog2 (0 * P) = 0 := by rw [Nat.zero_mul]; decide
    rw [hl]
    have hr : roundNearestEven (0 * P * b) (b * 2 ^ (0 - 52)) = 0 := by
      have := roundNearestEven_mul 0 (b * 2 ^ (0 - 52)) (Nat.mul_pos hb (Nat.two_pow_pos _))
      simpa using this
    rw [hr, Nat.zero_mul, Nat.zero_mul, if_pos (Nat.two_pow_pos _)]
  · have key : ∀ L : Nat, 2 ^ L ≤ K → K < 2 ^ (L + 1) → L < 53 →
        (if roundNearestEven (K * P * b) (b * 2 ^ (floorLog2 (K * P) - 52))
              * 2 ^ (floorLog2 (K * P) - 52) < 2 ^ 2098 then
            JsNumber.fin neg (roundNearestEven (K * P * b) (b * 2 ^ (floorLog2 (K * P) - 52))
              * 2 ^ (floorLog2 (K * P) - 52))
          else JsNumber.inf neg) = JsNumber.fin neg (K * P) := by
      intro L hL1 hL2 hL
      have hlog : floorLog2 (K * P) = L + 1074 := by
        rw [floorLog2_eq_natLog2 _ (mul_pow_lt_of_lt K P 4096 hP hK (by decide))]
        apply log2_eq_of_bounds
        · rw [pow_two_split (L + 1074) L 1074 rfl, ← hP]
          exact Nat.mul_le_mul_right _ hL1
        · rw [pow_two_split (L + 1074 + 1) (L + 1) 1074 (by omega), ← hP]
          exact Nat.mul_lt_mul_of_pos_right hL2 hPpos
      have hshift : L + 1074 - 52 = L + 1022 := by omega
      have hsplit : P = 2 ^ (52 - L) * 2 ^ (L + 1022) := by
        rw [hP]
        exact pow_two_split 1074 (52 - L) (L + 1022) (by omega)
      have ha : K * P * b = K * 2 ^ (52 - L) * (b * 2 ^ (L + 1022)) := by
        rw [hsplit]
        ring
      have hr : roundNearestEven (K * P * b) (b * 2 ^ (L + 1022)) = K * 2 ^ (52 - L) := by
        rw [ha]
        exact roundNearestEven_mul _ _ (Nat.mul_pos hb (Nat.two_pow_pos _))
      have hn : K * 2 ^ (52 - L) * 2 ^ (L + 1022) = K * P := by
        rw [hsplit]
        ring
      rw [hlog, hshift, hr, hn, if_pos hlt]
    exact key (Nat.log2 K) (Nat.log2_self_le h0) Nat.lt_log2_self ((Nat.log2_lt h0).mpr hK)

theorem one_shiftLeft_units : 1 <<< 1074 = 2 ^ 1074 := Nat.one_shiftLeft 1074

theorem ofNat_eq (n : Nat) (hn : n < 2 ^ 53) :
    JsNumber.ofNat n = .fin false (n * 2 ^ 1074) := by
  unfold JsNumber.ofNat
  rw [Nat.shiftLeft_eq]
  have h := roundUnits_exact false n 1 hn (by decide)
  rwa [Nat.mul_one] at h

theorem ofInt_eq (z : Int) (hz : z.natAbs < 2 ^ 53) :
    JsNumber.ofInt z = .fin (decide (z < 0)) (z.natAbs * 2 ^ 1074) := by
  unfold JsNumber.ofInt
  rw [Nat.shiftLeft_eq]
  have h := roundUnits_exact (decide (z < 0)) z.natAbs 1 hz (by decide)
  rwa [Nat.mul_one] at h

theorem mul_fin_exact (s t : Bool) (A B : Nat) (h : A * B < 2 ^ 53) :
    JsNumber.mul (.fin s (A * 2 ^ 1074)) (.fin t (B * 2 ^ 1074))
      = .fin (xor s t) (A * B * 2 ^ 1074) := by
  simp only [JsNumber.mul]
  rw [one_shiftLeft_units]
  have e : A * 2 ^ 1074 * (B * 2 ^ 1074) = A * B * 2 ^ 1074 * 2 ^ 1074 := by ring
  rw [e]
  exact roundUnits_exact _ _ _ h (Nat.two_pow_pos _)

theorem div_fin_exact (s t : Bool) (A B : Nat) (hB : 0 < B) (hA : A < 2 ^ 53) :
    JsNumber.div (.fin s (A * B * 2 ^ 1074)) (.fin t (B * 2 ^ 1074))
      = .fin (xor s t) (A * 2 ^ 1074) := by
  have hv : B * 2 ^ 1074 ≠ 0 := Nat.ne_of_gt (Nat.mul_pos hB (Nat.two_pow_pos _))
  simp only [JsNumber.div]
  rw [if_neg hv, Nat.shiftLeft_eq]
  have e : A * B * 2 ^ 1074 * 2 ^ 1074 = A * 2 ^ 1074 * (B * 2 ^ 1074) := by ring
  rw [e]
  exact roundUnits_exact _ _ _ hA (Nat.mul_pos hB (Nat.two_pow_pos _))

theorem add_fin_same (s : Bool) (A B : Nat) (h : A + B < 2 ^ 53) :
    JsNumber.add (.fin s (A * 2 ^ 1074)) (.fin s (B * 2 ^ 1074))
      = .fin s ((A + B) * 2 ^ 1074) := by
  simp only [JsNumber.add]
  rw [if_pos trivial]
  have e : A * 2 ^ 1074 + B * 2 ^ 1074 = (A + B) * 2 ^ 1074 * 1 := by ring
  rw [e]
  exact roundUnits_exact _ _ _ h (by decide)

theorem add_fin_larger (s t : Bool) (hst : s ≠ t) (A B : Nat) (hBA : B < A) (hA : A < 2 ^ 53) :
    JsNumber.add (.fin s (A * 2 ^ 1074)) (.fin t (B * 2 ^ 1074))
      = .fin s ((A - B) * 2 ^ 1074) := by
  have hlt : B * 2 ^ 1074 < A * 2 ^ 1074 := Nat.mul_lt_mul_of_pos_right hBA (Nat.two_pow_pos _)
  simp only [JsNumber.add]
  rw [if_neg hst, if_neg (Nat.ne_of_gt hlt), if_pos hlt]
  have e : A * 2 ^ 1074 - B * 2 ^ 1074 = (A - B) * 2 ^ 1074 * 1 := by
    rw [Nat.mul_one, Nat.sub_mul]
  rw [e]
  exact roundUnits_exact _ _ _ (by omega) (by decide)

theorem add_fin_smaller (s t : Bool) (hst : s ≠ t) (A B : Nat) (hAB : A < B) (hB : B < 2 ^ 53) :
    JsNumber.add (.fin s (A * 2 ^ 1074)) (.fin t (B * 2 ^ 1074))
      = .fin t ((B - A) * 2 ^ 1074) := by
  have hlt : A * 2 ^ 1074 < B * 2 ^ 1074 := Nat.mul_lt_mul_of_pos_right hAB (Nat.two_pow_pos _)
  simp only [JsNumber.add]
  rw [if_neg hst, if_neg (Nat.ne_of_lt hlt), if_neg (Nat.lt_asymm hlt)]
  have e : B * 2 ^ 1074 - A * 2 ^ 1074 = (B - A) * 2 ^ 1074 * 1 := by
    rw [Nat.mul_one, Nat.sub_mul]
  rw [e]
  exact roundUnits_exact _ _ _ (by omega) (by decide)

theorem convertTemp_fahrenheit_eq (c : JsNumber) :
    convertTemp false c
      = JsNumber.add (JsNumber.div (JsNumber.mul c (JsNumber.ofNat 9)) (JsNumber.ofNat 5))
          (JsNumber.ofNat 32) := rfl

theorem fin_units_congr (s t : Bool) (A B : Nat) (hs : s = t) (hAB : A = B) :
    JsNumber.fin s (A * 2 ^ 1074) = JsNumber.fin t (B * 2 ^ 1074) := by
  rw [hs, hAB]

/-- The Fahrenheit conversion of an integer multiple of 5 is computed without
any rounding error. -/
theorem convertTemp_ofInt_mul_five (k : Int) (hk : k.natAbs < 2 ^ 47) :
    convertTemp false (JsNumber.ofInt (5 * k)) = JsNumber.ofInt (9 * k + 32) := by
  have h9 := ofNat_eq 9 (by decide)
  have h5 := ofNat_eq 5 (by decide)
  have h32 := ofNat_eq 32 (by decide)
  have hpow : (2 : Nat) ^ 53 = 64 * 2 ^ 47 := by decide
  have hc : JsNumber.ofInt (5 * k) = .fin (decide (k < 0)) (5 * k.natAbs * 2 ^ 1074) := by
    rw [ofInt_eq (5 * k) (by omega)]
    exact fin_units_congr _ _ _ _ (by simp; omega) (by omega)
  rw [convertTemp_fahrenheit_eq, h9, h5, h32, hc, mul_fin_exact _ _ _ _ (by omega),
    Bool.xor_false]
  have e45 : 5 * k.natAbs * 9 = 9 * k.natAbs * 5 := by ring
  rw [e45, div_fin_exact _ _ _ _ (by decide) (by omega), Bool.xor_false,
    ofInt_eq (9 * k + 32) (by omega)]
  by_cases hneg : k < 0
  · have hd : decide (k < 0) = true := decide_eq_true hneg
    rw [hd]
    by_cases hbig : 32 < 9 * k.natAbs
    · rw [add_fin_larger true false (by decide) _ _ hbig (by omega)]
      exact fin_units_congr _ _ _ _ (by simp; omega) (by omega)
    · have hsmall : 9 * k.natAbs < 32 := by omega
      rw [add_fin_smaller true false (by decide) _ _ hsmall (by decide)]
      exact fin_units_congr _ _ _ _ (by simp; omega) (by omega)
  · have hd : decide (k < 0) = false := decide_eq_false hneg
    rw [hd, add_fin_same false _ _ (by omega)]
    exact fin_units_congr _ _ _ _ (by simp; omega) (by omega)

theorem rat_fahrenheit_iff (u v P : ℚ) (hP : P ≠ 0) :
    u / P = v / P * (9 / 5) + 32 ↔ 5 * u = 9 * v + 160 * P := by
  have e : (v / P * (9 / 5) + 32) * P = v * (9 / 5) + 32 * P := by
    field_simp
    ring
  rw [div_eq_iff hP, e]
  constructor <;> intro h <;> linarith

theorem toRat_ofInt (z : Int) (hz : z.natAbs < 2 ^ 53) :
    (JsNumber.ofInt z).toRat = some (z : ℚ) := by
  rw [ofInt_eq z hz]
  have hP : ((2 : ℚ) ^ 1074) ≠ 0 := pow_ne_zero _ two_ne_zero
  simp only [JsNumber.toRat, Option.some.injEq, Nat.cast_mul, Nat.cast_pow, Nat.cast_ofNat,
    Nat.cast_natAbs, Int.cast_abs]
  generalize (2 : ℚ) ^ 1074 = P at hP
  by_cases h : z < 0
  · have hq : (z : ℚ) < 0 := by exact_mod_cast h
    rw [decide_eq_true h, if_pos rfl, abs_of_neg hq]
    field_simp
  · have hq : (0 : ℚ) ≤ (z : ℚ) := by exact_mod_cast (not_lt.mp h)
    rw [decide_eq_false h, if_neg (by decide), abs_of_nonneg hq]
    field_simp

theorem toRat_exact_iff (u v : Nat) :
    (JsNumber.fin false u).toRat
        = ((JsNumber.fin false v).toRat).map (fun x => x * (9 / 5) + 32)
      ↔ 5 * u = 9 * v + 160 * 2 ^ 1074 := by
  have hP : ((2 : ℚ) ^ 1074) ≠ 0 := pow_ne_zero _ two_ne_zero
  simp only [JsNumber.toRat, Option.map_some', Option.some.injEq, Bool.false_eq_true, if_false,
    one_mul]
  rw [rat_fahrenheit_iff _ _ _ hP]
  constructor
  · intro h
    exact_mod_cast h
  · intro h
    exact_mod_cast h

/-- Sample values of the binary64 operations: ties go to the even neighbour,
the classic sum of 0.1 and 0.2, overflow to an infinity, the halved smallest
subnormal, signed zeros and the invalid operations. -/
theorem binary64_samples :
    JsNumber.ofNat (2 ^ 53 + 1) = JsNumber.ofNat (2 ^ 53) ∧
    JsNumber.ofNat (2 ^ 53 + 3) = JsNumber.ofNat (2 ^ 53 + 4) ∧
    JsNumber.ofDecimal false 1 10 + JsNumber.ofDecimal false 2 10
      = JsNumber.ofDecimal false 30000000000000004 100000000000000000 ∧
    JsNumber.ofDecimal false 1 10 + JsNumber.ofDecimal false 2 10
      ≠ JsNumber.ofDecimal false 3 10 ∧
    JsNumber.ofDecimal false (17976931348623157 * 10 ^ 292) 1 * 2 = .inf false ∧
    JsNumber.ofDecimal false (17976931348623157 * 10 ^ 292) 1
      = .fin false ((2 ^ 53 - 1) * 2 ^ 2045) ∧
    JsNumber.fin false 1 / 2 = .fin false 0 ∧
    JsNumber.fin false 3 / 2 = .fin false 2 ∧
    JsNumber.fin true 0 + JsNumber.fin false 0 = .fin false 0 ∧
    JsNumber.fin true 0 + JsNumber.fin true 0 = .fin true 0 ∧
    JsNumber.fin true 0 * 9 = .fin true 0 ∧
    JsNumber.ofInt (-5) + 5 = .fin false 0 ∧
    JsNumber.inf false * 0 = .nan ∧
    (0 : JsNumber) / 0 = .nan ∧
    (1 : JsNumber) / 0 = .inf false ∧
    JsNumber.inf false + JsNumber.inf true = .nan ∧
    convertTemp false JsNumber.nan = .nan ∧
    convertTemp false (JsNumber.fin true 0) = 32 := by
  decide

/-- C6, as stated, fails on the code: for the temperature 3.7 the Fahrenheit
result of `convertTemp` is the number 38.660000000000004, whose exact value is
not the exact value of the argument times 9/5 plus 32, and which is not the
number nearest to 38.66 either; for 3e307 the result is `Infinity`. -/
theorem convertTemp_inexact :
    (convertTemp false (JsNumber.ofDecimal false 37 10)).toRat
      ≠ ((JsNumber.ofDecimal false 37 10).toRat).map (fun x => x * (9 / 5) + 32) ∧
    convertTemp false (JsNumber.ofDecimal false 37 10)
      = JsNumber.ofDecimal false 38660000000000004 1000000000000000 ∧
    convertTemp false (JsNumber.ofDecimal false 37 10) ≠ JsNumber.ofDecimal false 3866 100 ∧
    convertTemp false (JsNumber.ofDecimal false (3 * 10 ^ 307) 1) = .inf false := by
  have hx : convertTemp false (JsNumber.ofDecimal false 37 10)
      = .fin false (convertTemp false (JsNumber.ofDecimal false 37 10)).units := by decide
  have hc : JsNumber.ofDecimal false 37 10
      = .fin false (JsNumber.ofDecimal false 37 10).units := by decide
  have key := (toRat_exact_iff (convertTemp false (JsNumber.ofDecimal false 37 10)).units
    (JsNumber.ofDecimal false 37 10).units).not.mpr (by decide)
  rw [← hx, ← hc] at key
  exact ⟨key, by decide, by decide, by decide⟩

/-- C6, amended: in Celsius mode `convertTemp` returns its argument; in
Fahrenheit mode its result is exactly `c × 9/5 + 32` for every temperature `c`
that is an integer multiple of 5 of magnitude below `5 × 2 ^ 47` (so 0 gives
32, 100 gives 212 and 20 gives 68); `convertTemp` rounds nothing to an
integer: 0.5 gives the number 32.9. -/
theorem convertTemp_binary64 (c : JsNumber) :
    convertTemp true c = c ∧
    (∀ k : Int, k.natAbs < 2 ^ 47 →
      convertTemp false (JsNumber.ofInt (5 * k)) = JsNumber.ofInt (9 * k + 32) ∧
      (JsNumber.ofInt (5 * k)).toRat = some ((5 * k : Int) : ℚ) ∧
      (convertTemp false (JsNumber.ofInt (5 * k))).toRat
        = some (((5 * k : Int) : ℚ) * (9 / 5) + 32)) ∧
    convertTemp false (0 : JsNumber) = 32 ∧
    convertTemp false (100 : JsNumber) = 212 ∧
    convertTemp false (20 : JsNumber) = 68 ∧
    convertTemp false (JsNumber.ofDecimal false 1 2) = JsNumber.ofDecimal false 329 10 ∧
    convertTemp false (JsNumber.ofDecimal false 1 2) ≠ 33 ∧
    convertTemp true (JsNumber.ofDecimal false 37 2) = JsNumber.ofDecimal false 37 2 := by
  refine ⟨rfl, ?_, by decide, by decide, by decide, by decide, by decide, rfl⟩
  intro k hk
  have h1 := convertTemp_ofInt_mul_five k hk
  have hpow : (2 : Nat) ^ 53 = 64 * 2 ^ 47 := by decide
  refine ⟨h1, toRat_ofInt _ (by omega), ?_⟩
  rw [h1, toRat_ofInt _ (by omega)]
  congr 1
  push_cast
  ring

/-- Witness for C6: minus 5 degrees Celsius is 23 degrees Fahrenheit. -/
theorem convertTemp_binary64_witness :
    (-1 : Int).natAbs < 2 ^ 47 ∧
    convertTemp false (JsNumber.ofInt (5 * -1)) = JsNumber.ofInt (9 * -1 + 32) :=
  ⟨by decide, (((convertTemp_binary64 .nan).2.1) (-1) (by decide)).1⟩

end Binary64

/-! ## Search: the chosen candidate -/

theorem find?_eq_some_first {α : Type} (p : α → Bool) (l : List α) (c : α)
    (h : l.find? p = some c) :
    ∃ i : Nat, l[i]? = some c ∧ p c = true ∧
      ∀ j : Nat, j < i → ∀ r, l[j]? = some r → p r = false := by
  induction l with
  | nil => simp at h
  | cons a rest ih =>
    by_cases ha : p a = true
    · rw [List.find?_cons_of_pos _ ha] at h
      cases h
      exact ⟨0, by simp, ha, fun j hj => absurd hj (Nat.not_lt_zero j)⟩
    · rw [List.find?_cons_of_neg _ ha] at h
      obtain ⟨i, hi, hc, hlt⟩ := ih h
      refine ⟨i + 1, by simpa using hi, hc, ?_⟩
      intro j hj r hr
      cases j with
      | zero =>
        simp at hr
        subst hr
        simpa using ha
      | succ j => exact hlt j (by omega) r (by simpa using hr)

theorem toLowerCase_beq (t w : String) :
    (toLowerCase t == w) = (t.data.map Char.toLower == w.data) := by
  unfold toLowerCase
  rw [Bool.eq_iff_iff]
  simp [String.ext_iff]

theorem typeMatches_eq_spec (r : NominatimResult) : typeMatches r = specTypeMatches r := by
  unfold typeMatches specTypeMatches
  cases ht : r.type with
  | none => decide
  | some t =>
    have hj : jsOrElse (some t) "" = t := by
      unfold jsOrElse
      by_cases h : t = "" <;> simp [h]
    have e1 : "city".data.map Char.toLower = "city".data := by decide
    have e2 : "town".data.map Char.toLower = "town".data := by decide
    have e3 : "village".data.map Char.toLower = "village".data := by decide
    have e4 : "municipality".data.map Char.toLower = "municipality".data := by decide
    simp only [hj, toLowerCase_beq, List.any_cons, List.any_nil, Bool.or_false,
      equalIgnoringCase, e1, e2, e3, e4, Bool.or_assoc]

theorem addressMatches_eq_spec (r : NominatimResult) :
    addressMatches r = specAddressMatches r := by
  unfold addressMatches specAddressMatches
  cases r.address with
  | none => rfl
  | some a =>
    simp only [List.any_cons, List.any_nil, Bool.or_false, truthy, Bool.or_assoc]

/-- The chosen candidate is the first match of rule 1, else the first match of
rule 2, else the head of the list. -/
theorem chooseCandidate_first_match (results : List NominatimResult) (hne : results ≠ []) :
    ∃ c, chooseCandidate results = some c ∧
      ((∃ i : Nat, results[i]? = some c ∧ specTypeMatches c = true ∧
          ∀ j : Nat, j < i → ∀ r, results[j]? = some r → specTypeMatches r = false) ∨
       ((∀ r ∈ results, specTypeMatches r = false) ∧
          ∃ i : Nat, results[i]? = some c ∧ specAddressMatches c = true ∧
            ∀ j : Nat, j < i → ∀ r, results[j]? = some r → specAddressMatches r = false) ∨
       ((∀ r ∈ results, specTypeMatches r = false ∧ specAddressMatches r = false) ∧
          results[0]? = some c)) := by
  have ht : typeMatches = specTypeMatches := funext typeMatches_eq_spec
  have ha : addressMatches = specAddressMatches := funext addressMatches_eq_spec
  unfold chooseCandidate
  rw [ht, ha]
  cases h1 : results.find? specTypeMatches with
  | some c => exact ⟨c, rfl, Or.inl (find?_eq_some_first _ _ _ h1)⟩
  | none =>
    have hno : ∀ r ∈ results, specTypeMatches r = false := by
      intro r hr
      have := List.find?_eq_none.mp h1 r hr
      simpa using this
    cases h2 : results.find? specAddressMatches with
    | some c => exact ⟨c, rfl, Or.inr (Or.inl ⟨hno, find?_eq_some_first _ _ _ h2⟩)⟩
    | none =>
      have hno2 : ∀ r ∈ results, specAddressMatches r = false := by
        intro r hr
        have := List.find?_eq_none.mp h2 r hr
        simpa using this
      cases results with
      | nil => exact absurd rfl hne
      | cons c rest =>
        exact ⟨c, rfl, Or.inr (Or.inr ⟨fun r hr => ⟨hno r hr, hno2 r hr⟩, by simp⟩)⟩

/-- C1: on a non-empty candidate list `searchCityWeather` chooses the first
candidate whose type is, ignoring case, city, town, village or municipality
(so no candidate before it has such a type, while candidates of other types
may precede it); if no candidate has such a type, the first one whose address
holds a non-empty city, town, village or hamlet; if there is none either, the
candidate at index 0. Its `lat`, `lon` and label are what is handed on to the
weather request. -/
theorem chooseCandidate_priority (results : List NominatimResult) (hne : results ≠ []) :
    ∃ c, chooseCandidate results = some c ∧
      searchCityWeather results = some (c.lat, c.lon, searchLabel c) ∧
      ((∃ i : Nat, results[i]? = some c ∧ specTypeMatches c = true ∧
          ∀ j : Nat, j < i → ∀ r, results[j]? = some r → specTypeMatches r = false) ∨
       ((∀ r ∈ results, specTypeMatches r = false) ∧
          ∃ i : Nat, results[i]? = some c ∧ specAddressMatches c = true ∧
            ∀ j : Nat, j < i → ∀ r, results[j]? = some r → specAddressMatches r = false) ∨
       ((∀ r ∈ results, specTypeMatches r = false ∧ specAddressMatches r = false) ∧
          results[0]? = some c)) := by
  obtain ⟨c, hc, h⟩ := chooseCandidate_first_match results hne
  refine ⟨c, hc, ?_, h⟩
  simp [searchCityWeather, hc]

/-- Witness for C1: a road with a city address listed before a result of type
`City`; the typed result at index 1 is the one chosen. -/
theorem chooseCandidate_priority_witness :
    ([{ type := some "road", address := some [("city", "Paris")] },
      { type := some "City", name := some "Paris" }] : List NominatimResult) ≠ [] ∧
    chooseCandidate
        [{ type := some "road", address := some [("city", "Paris")] },
         { type := some "City", name := some "Paris" }]
      = some { type := some "City", name := some "Paris" } ∧
    ∃ c, chooseCandidate
        [{ type := some "road", address := some [("city", "Paris")] },
         { type := some "City", name := some "Paris" }] = some c :=
  ⟨by decide, by decide,
    (chooseCandidate_priority
      [{ type := some "road", address := some [("city", "Paris")] },
       { type := some "City", name := some "Paris" }] (by decide)).imp fun _ h => h.1⟩

/-! ## The label formatter -/

theorem truthy_eq_true_iff (a : Option String) :
    truthy a = true ↔ ∃ s, a = some s ∧ s ≠ "" := by
  cases a with
  | none => simp [truthy]
  | some s => simp [truthy]

theorem append_comma_ne_empty (a b : String) : a ++ ", " ++ b ≠ "" := by
  intro h
  have hl := congrArg String.length h
  simp only [String.length_append] at hl
  have h2 : ", ".length = 2 := by decide
  have h0 : "".length = 0 := by decide
  omega

theorem jsOrElse_ne_empty (a : Option String) (b : String) (hb : b ≠ "") :
    jsOrElse a b ≠ "" := by
  unfold jsOrElse
  cases a with
  | none => exact hb
  | some s =>
    by_cases hs : s = ""
    · simpa [hs] using hb
    · simp [hs]

theorem jsOrElse_some (s b : String) (hs : s ≠ "") : jsOrElse (some s) b = s := by
  simp [jsOrElse, hs]

/-- The three ways `formatPlaceFromNominatim` returns on an object. -/
theorem formatPlaceFromNominatim_some (obj : NominatimResult) :
    formatPlaceFromNominatim (some obj) =
      if truthy (countryOf obj) then
        some (templateNull (placeOf obj) ++ ", " ++ templateNull (countryOf obj))
      else if truthy (placeOf obj) then placeOf obj
      else none := by
  simp only [formatPlaceFromNominatim]
  cases hc : truthy (countryOf obj) <;> cases hp : truthy (placeOf obj) <;> simp

theorem formatPlaceFromNominatim_none_or_nonempty (obj : Option NominatimResult) :
    formatPlaceFromNominatim obj = none ∨
      ∃ s, formatPlaceFromNominatim obj = some s ∧ s ≠ "" := by
  cases obj with
  | none => exact Or.inl rfl
  | some o =>
    rw [formatPlaceFromNominatim_some]
    by_cases hc : truthy (countryOf o) = true
    · rw [if_pos hc]
      exact Or.inr ⟨_, rfl, append_comma_ne_empty _ _⟩
    · rw [if_neg hc]
      by_cases hp : truthy (placeOf o) = true
      · rw [if_pos hp]
        obtain ⟨s, hs, hne⟩ := (truthy_eq_true_iff _).mp hp
        exact Or.inr ⟨s, hs, hne⟩
      · rw [if_neg hp]
        exact Or.inl rfl

/-- C2: an object whose only data is `address.country = "France"` resolves no
place and the country "France", and `formatPlaceFromNominatim` returns the
text `null, France` for it, not the country alone. -/
theorem formatPlace_country_only :
    placeOf { address := some [("country", "France")] } = none ∧
    countryOf { address := some [("country", "France")] } = some "France" ∧
    formatPlaceFromNominatim (some { address := some [("country", "France")] })
      = some "null, France" ∧
    formatPlaceFromNominatim (some { address := some [("country", "France")] })
      ≠ some "France" := by
  decide

/-- C4: `formatPlaceFromNominatim` returns no label or a non-empty one, and
the labels built for a chosen search candidate and for a reverse-geocoding
outcome are never the empty string. -/
theorem label_never_empty {Num : Type} (toFixed : Num → Nat → String)
    (obj : Option NominatimResult) (chosen : NominatimResult)
    (outcome : ReverseOutcome) (lat lon : Num) :
    (formatPlaceFromNominatim obj = none ∨
      ∃ s, formatPlaceFromNominatim obj = some s ∧ s ≠ "") ∧
    searchLabel chosen ≠ "" ∧
    (∃ label, getCityNameForCoords toFixed outcome lat lon = .ok label ∧ label ≠ "") := by
  refine ⟨formatPlaceFromNominatim_none_or_nonempty obj, ?_, ?_⟩
  · unfold searchLabel
    exact jsOrElse_ne_empty _ _ (jsOrElse_ne_empty _ _ (append_comma_ne_empty _ _))
  · cases outcome with
    | transportFailure => exact ⟨_, rfl, append_comma_ne_empty _ _⟩
    | badStatus => exact ⟨_, rfl, append_comma_ne_empty _ _⟩
    | body j => exact ⟨_, rfl, jsOrElse_ne_empty _ _ (append_comma_ne_empty _ _)⟩

/-- C5: `getCityNameForCoords` always returns a label; the label is the one
of the formatter when the request succeeds and the formatter yields one, and
whenever the request fails or the formatter yields none it is `toFixed(2)` of
`lat`, then ", ", then `toFixed(2)` of `lon`. -/
theorem getCityNameForCoords_total {Num : Type} (toFixed : Num → Nat → String)
    (outcome : ReverseOutcome) (lat lon : Num) :
    (∃ label, getCityNameForCoords toFixed outcome lat lon = .ok label) ∧
    (∀ j s, outcome = .body j → formatPlaceFromNominatim j = some s →
      getCityNameForCoords toFixed outcome lat lon = .ok s) ∧
    ((∀ j, outcome = .body j → formatPlaceFromNominatim j = none) →
      getCityNameForCoords toFixed outcome lat lon
        = .ok (toFixed lat 2 ++ ", " ++ toFixed lon 2)) := by
  refine ⟨?_, ?_, ?_⟩
  · cases outcome <;> exact ⟨_, rfl⟩
  · intro j s ho hs
    subst ho
    have hne : s ≠ "" := by
      rcases formatPlaceFromNominatim_none_or_nonempty j with h | ⟨t, ht, hne⟩
      · rw [h] at hs
        cases hs
      · rw [ht] at hs
        cases hs
        exact hne
    show Except.ok (jsOrElse (formatPlaceFromNominatim j) (coordLabel toFixed lat lon)) = _
    rw [hs, jsOrElse_some s _ hne]
  · intro h
    cases outcome with
    | transportFailure => rfl
    | badStatus => rfl
    | body j =>
      show Except.ok (jsOrElse (formatPlaceFromNominatim j) (coordLabel toFixed lat lon)) = _
      rw [h j rfl]
      rfl

/-- Witness for C5: a reverse result without any usable field at the integer
coordinates 12 and -7. -/
theorem getCityNameForCoords_total_witness :
    formatPlaceFromNominatim (some {}) = none ∧
    getCityNameForCoords toFixedInt (.body (some {})) 12 (-7) = .ok "12.00, -7.00" :=
  ⟨by decide,
    ((getCityNameForCoords_total toFixedInt (.body (some {})) 12 (-7)).2.2
      (fun j hj => by cases hj; decide)).trans rfl⟩

/-! ## The place name -/

theorem splitChars_ne_nil (l : List Char) : splitChars l ≠ [] := by
  cases l with
  | nil => simp [splitChars]
  | cons c cs =>
    unfold splitChars
    cases splitChars cs with
    | nil => simp
    | cons seg rest => by_cases hc : c = ',' <;> simp [hc]

theorem splitChars_headD (l : List Char) :
    (splitChars l).headD [] = l.takeWhile fun c => c != ',' := by
  induction l with
  | nil => rfl
  | cons c cs ih =>
    unfold splitChars
    cases hs : splitChars cs with
    | nil => exact absurd hs (splitChars_ne_nil cs)
    | cons seg rest =>
      rw [hs] at ih
      by_cases hc : c = ','
      · simp [hc]
      · have : cs.takeWhile (fun c => c != ',') = seg := by simpa using ih.symm
        simp [hc, this]

theorem split_headD (s : String) : (split s).headD "" = firstSegment s := by
  unfold split firstSegment
  rw [← splitChars_headD]
  cases splitChars s.data with
  | nil => rfl
  | cons seg rest => rfl

theorem probePlaceKeys_none_or_truthy (a : JsObject) (ks : List String) :
    probePlaceKeys a ks = none ∨ truthy (probePlaceKeys a ks) = true := by
  induction ks with
  | nil => exact Or.inl rfl
  | cons k ks ih =>
    unfold probePlaceKeys
    by_cases h : truthy (getProp a k) = true
    · rw [if_pos h]
      exact Or.inr h
    · rw [if_neg h]
      exact ih

theorem probePlaceKeys_eq_spec (a : JsObject) :
    probePlaceKeys a PLACE_KEYS = specFirstAddressValue a := by
  simp only [probePlaceKeys, PLACE_KEYS, specFirstAddressValue]

theorem truthy_none : truthy none = false := rfl

theorem truthy_some (s : String) : truthy (some s) = (s != "") := rfl

theorem placeOf_eq_specPlace (obj : NominatimResult) : placeOf obj = specPlace obj := by
  simp only [placeOf, specPlace, ← probePlaceKeys_eq_spec]
  rcases probePlaceKeys_none_or_truthy (obj.address.getD []) PLACE_KEYS with h | h
  · rw [h]
    by_cases hn : truthy obj.name = true
    · simp [hn, truthy_none]
    · cases hd : obj.display_name with
      | none => simp [hn, truthy_none]
      | some d =>
        by_cases he : d = ""
        · simp [hn, truthy_none, truthy_some, he]
        · have hh : (split d).head?.getD "" = firstSegment d := by
            rw [← split_headD, List.headD_eq_head?_getD]
          simp [hn, truthy_none, truthy_some, he, hh]
  · obtain ⟨v, hv, hne⟩ := (truthy_eq_true_iff _).mp h
    rw [hv]
    simp [truthy_some, hne]

theorem getProp_eq_some_iff_mem (a : JsObject) (hnd : (a.map Prod.fst).Nodup)
    (k v : String) : getProp a k = some v ↔ (k, v) ∈ a := by
  induction a generalizing v with
  | nil => simp [getProp]
  | cons p rest ih =>
    obtain ⟨k', v'⟩ := p
    simp only [List.map_cons, List.nodup_cons] at hnd
    obtain ⟨hk', hrest⟩ := hnd
    have ih := fun u => ih hrest u
    have hkey : ∀ w, (k', w) ∉ rest := fun w hw =>
      hk' (List.mem_map.mpr ⟨(k', w), hw, rfl⟩)
    unfold getProp
    cases hg : getProp rest k with
    | some w =>
      have hmem : ∀ u, (k, u) ∈ rest ↔ w = u := fun u => by
        rw [← ih, hg]
        simp
      have hne : k' ≠ k := fun e => hkey w (e ▸ (hmem w).mpr rfl)
      simp only [List.mem_cons, Prod.mk.injEq, Option.some.injEq]
      constructor
      · intro e
        exact Or.inr ((hmem v).mpr e)
      · rintro (⟨e, _⟩ | hm)
        · exact absurd e.symm hne
        · exact (hmem v).mp hm
    | none =>
      have hmem : ∀ u, (k, u) ∉ rest := fun u hu => by
        have := (ih u).mpr hu
        rw [hg] at this
        cases this
      simp only [List.mem_cons, Prod.mk.injEq]
      by_cases e : k' = k
      · subst e
        rw [if_pos rfl]
        constructor
        · intro h
          cases h
          exact Or.inl ⟨rfl, rfl⟩
        · rintro (⟨_, e2⟩ | hm)
          · rw [e2]
          · exact absurd hm (hmem v)
      · rw [if_neg e]
        constructor
        · intro h
          cases h
        · rintro (⟨e1, _⟩ | hm)
          · exact absurd e1.symm e
          · exact absurd hm (hmem v)

theorem getProp_perm (a b : JsObject) (hnd : (a.map Prod.fst).Nodup) (hp : a.Perm b)
    (k : String) : getProp b k = getProp a k := by
  have hndb : (b.map Prod.fst).Nodup := (hp.map Prod.fst).nodup_iff.mp hnd
  apply Option.ext
  intro v
  simp only [Option.mem_def]
  rw [getProp_eq_some_iff_mem a hnd, getProp_eq_some_iff_mem b hndb]
  exact hp.mem_iff.symm

theorem probePlaceKeys_congr (a b : JsObject) (h : ∀ k, getProp b k = getProp a k)
    (ks : List String) : probePlaceKeys b ks = probePlaceKeys a ks := by
  induction ks with
  | nil => rfl
  | cons k ks ih => simp only [probePlaceKeys, h, ih]

/-- C3: the place part computed by `formatPlaceFromNominatim` is the first
non-empty value among the address keys city, town, village, hamlet,
municipality, county, state in that order, else the name field, else the
trimmed first comma-delimited segment of `display_name`. An address with a
non-empty city `Y` and a state `X` gives the place `Y`, and listing the
members of an address in another order never changes the place. -/
theorem place_part_priority (obj : NominatimResult) :
    placeOf obj = specPlace obj ∧
    (∀ (a : JsObject) (X Y : String),
      obj.address = some a → getProp a "city" = some Y → Y ≠ "" →
      getProp a "state" = some X →
        placeOf obj = some Y ∧ (X ≠ Y → placeOf obj ≠ some X)) ∧
    (∀ a b : JsObject, obj.address = some a → (a.map Prod.fst).Nodup → a.Perm b →
      placeOf { obj with address := some b } = placeOf obj) := by
  refine ⟨placeOf_eq_specPlace obj, ?_, ?_⟩
  · intro a X Y haddr hcity hY _
    have hplace : placeOf obj = some Y := by
      rw [placeOf_eq_specPlace]
      simp only [specPlace, haddr, Option.getD_some, specFirstAddressValue, hcity, truthy_some]
      simp [hY]
    refine ⟨hplace, ?_⟩
    intro hXY h
    rw [hplace] at h
    cases h
    exact hXY rfl
  · intro a b haddr hnd hperm
    simp only [placeOf, haddr, Option.getD_some,
      probePlaceKeys_congr a b (getProp_perm a b hnd hperm)]

/-- Witness for C3: the state is listed before the city. -/
theorem place_part_priority_witness :
    placeOf { address := some [("state", "X"), ("city", "Y")] } = some "Y" ∧
    placeOf { address := some [("city", "Y"), ("state", "X")] }
      = placeOf { address := some [("state", "X"), ("city", "Y")] } :=
  ⟨((place_part_priority { address := some [("state", "X"), ("city", "Y")] }).2.1
      [("state", "X"), ("city", "Y")] "X" "Y" rfl (by decide) (by decide) (by decide)).1,
   (place_part_priority { address := some [("state", "X"), ("city", "Y")] }).2.2
      [("state", "X"), ("city", "Y")] [("city", "Y"), ("state", "X")]
      rfl (by decide) (List.Perm.swap _ _ _)⟩

/-! ## Rendering: the forecast cards -/

theorem exists_four_of_length {α : Type} (l : List α) (h : 4 ≤ l.length) :
    ∃ a b c d r, l = a :: b :: c :: d :: r := by
  match l, h with
  | a :: b :: c :: d :: r, _ => exact ⟨a, b, c, d, r, rfl⟩

/-- The forecast loop when the four daily series are present: three cards,
from the day indices 1, 2 and 3, and no throw. -/
theorem forecastLoop_of_series (weekday : Option String → String) (isCelsius : Bool)
    (time : List String) (maxs mins : List ℚ) (codes : List Int) :
    forecastLoop weekday isCelsius
        (some { time := some time, temperature_2m_max := some maxs,
                temperature_2m_min := some mins, weathercode := some codes })
        (List.range' 1 daysToShow) []
      = ([{ dayName := weekday time[1]?, emoji := emojiOf codes[1]?,
            min := roundedTemp isCelsius mins[1]?, max := roundedTemp isCelsius maxs[1]? },
          { dayName := weekday time[2]?, emoji := emojiOf codes[2]?,
            min := roundedTemp isCelsius mins[2]?, max := roundedTemp isCelsius maxs[2]? },
          { dayName := weekday time[3]?, emoji := emojiOf codes[3]?,
            min := roundedTemp isCelsius mins[3]?, max := roundedTemp isCelsius maxs[3]? }],
         false) := by
  simp [forecastLoop, forecastCard, daysToShow, List.range']

/-- With current weather and the four daily series present `displayWeather`
completes normally. -/
theorem displayWeather_normal_of_series (weekday : Option String → String)
    (weather : CurrentWeather) (hourly : Option Hourly)
    (time : List String) (maxs mins : List ℚ) (codes : List Int)
    (place : String) (s : AppState) :
    displayWeather weekday
        { current_weather := some weather, hourly := hourly,
          daily := some { time := some time, temperature_2m_max := some maxs,
                          temperature_2m_min := some mins, weathercode := some codes } }
        place s
      = .normal (displayWeather weekday
        { current_weather := some weather, hourly := hourly,
          daily := some { time := some time, temperature_2m_max := some maxs,
                          temperature_2m_min := some mins, weathercode := some codes } }
        place s).state := by
  simp only [displayWeather, forecastLoop_of_series]
  rfl

/-! ## Rendering: what `displayWeather` leaves behind -/

/-- The state left by `displayWeather`, whether it completes or throws. -/
theorem displayWeather_state (weekday : Option String → String) (data : WeatherData)
    (place : String) (s : AppState) :
    (displayWeather weekday data place s).state =
      match data.current_weather with
      | none => { s with currentData := some data }
      | some weather =>
        { isCelsius := s.isCelsius
          currentData := some data
          dom :=
            { location := place
              temp := tempText s.isCelsius weather
              desc := descText weather
              humidity := humidityText data
              wind := windText weather
              forecast :=
                (forecastLoop weekday s.isCelsius data.daily (List.range' 1 daysToShow) []).1
              toggleText := s.dom.toggleText } } := by
  unfold displayWeather
  cases data.current_weather with
  | none => rfl
  | some weather =>
    simp only
    cases (forecastLoop weekday s.isCelsius data.daily (List.range' 1 daysToShow) []).2 <;> rfl

/-- The text the toggle handler writes on its button. -/
theorem toggleUnit_fields (weekday : Option String → String) (s : AppState) :
    (toggleUnit weekday s).isCelsius = !s.isCelsius ∧
    (toggleUnit weekday s).currentData = s.currentData ∧
    (toggleUnit weekday s).dom.toggleText =
      (if !s.isCelsius then "Switch to \u00c2\u00b0F" else "Switch to \u00c2\u00b0C") := by
  unfold toggleUnit
  cases hd : s.currentData with
  | none => simp [hd]
  | some data =>
    obtain ⟨cw, hourly, daily⟩ := data
    cases cw <;> simp [hd, displayWeather_state]

/-- C9: two unit toggles in succession restore the unit flag and leave the
stored snapshot unchanged in every state; and in the state shown by
`displayWeather` for a snapshot they bring back the same current temperature
text and the same forecast cards (minimum and maximum included), exactly,
together with the description, humidity, wind and location. One toggle
flips the flag. -/
theorem toggle_twice_round_trip (weekday : Option String → String) (s s0 : AppState)
    (data : WeatherData) (place : String) :
    (toggleUnit weekday s).isCelsius = (!s.isCelsius) ∧
    (toggleUnit weekday (toggleUnit weekday s)).isCelsius = s.isCelsius ∧
    (toggleUnit weekday (toggleUnit weekday s)).currentData = s.currentData ∧
    (toggleUnit weekday
        (toggleUnit weekday (displayWeather weekday data place s0).state)).currentData
      = some data ∧
    (toggleUnit weekday
        (toggleUnit weekday (displayWeather weekday data place s0).state)).dom.temp
      = (displayWeather weekday data place s0).state.dom.temp ∧
    (toggleUnit weekday
        (toggleUnit weekday (displayWeather weekday data place s0).state)).dom.forecast
      = (displayWeather weekday data place s0).state.dom.forecast ∧
    (toggleUnit weekday
        (toggleUnit weekday (displayWeather weekday data place s0).state)).dom
      = { (displayWeather weekday data place s0).state.dom with
          toggleText := if s0.isCelsius then "Switch to \u00c2\u00b0F"
                        else "Switch to \u00c2\u00b0C" } := by
  have hflag := fun t => (toggleUnit_fields weekday t).1
  have hdata := fun t => (toggleUnit_fields weekday t).2.1
  have hshown : (displayWeather weekday data place s0).state.currentData = some data := by
    rw [displayWeather_state]
    cases data.current_weather <;> rfl
  have hdom : (toggleUnit weekday
        (toggleUnit weekday (displayWeather weekday data place s0).state)).dom
      = { (displayWeather weekday data place s0).state.dom with
          toggleText := if s0.isCelsius then "Switch to \u00c2\u00b0F"
                        else "Switch to \u00c2\u00b0C" } := by
    obtain ⟨cw, hourly, daily⟩ := data
    cases cw <;> cases hc : s0.isCelsius <;> simp [toggleUnit, displayWeather_state, hc]
  refine ⟨hflag s, ?_, ?_, ?_, ?_, ?_, hdom⟩
  · rw [hflag, hflag, Bool.not_not]
  · rw [hdata, hdata]
  · rw [hdata, hdata, hshown]
  · rw [hdom]
  · rw [hdom]

/-- C7: for a snapshot with current weather and daily series of 4 or more
days, `displayWeather` completes and leaves exactly 3 forecast cards; card
`k` (for `k` = 1, 2, 3) shows the weekday of the date, the icon of the weather
code and the rounded converted minimum and maximum found at daily index `k`.
Index 0 is not used: replacing the entries at index 0 of the four series
leaves the three cards as they are. -/
theorem forecast_three_cards (weekday : Option String → String) (data : WeatherData)
    (place : String) (s : AppState) (weather : CurrentWeather) (d : Daily)
    (time : List String) (maxs mins : List ℚ) (codes : List Int)
    (hw : data.current_weather = some weather) (hd : data.daily = some d)
    (ht : d.time = some time) (hmax : d.temperature_2m_max = some maxs)
    (hmin : d.temperature_2m_min = some mins) (hcode : d.weathercode = some codes)
    (hlen : 4 ≤ time.length ∧ 4 ≤ maxs.length ∧ 4 ≤ mins.length ∧ 4 ≤ codes.length) :
    ∃ s', displayWeather weekday data place s = .normal s' ∧
      s'.dom.forecast.length = 3 ∧
      (∀ k : Nat, 1 ≤ k → k ≤ 3 →
        ∃ date tmax tmin code,
          time[k]? = some date ∧ maxs[k]? = some tmax ∧ mins[k]? = some tmin ∧
          codes[k]? = some code ∧
          s'.dom.forecast[k - 1]? = some
            { dayName := weekday (some date)
              emoji := getWeatherEmoji code
              min := some (round (convertTemp s.isCelsius tmin))
              max := some (round (convertTemp s.isCelsius tmax)) }) ∧
      (∀ (date0 : String) (tmax0 tmin0 : ℚ) (code0 : Int),
        (displayWeather weekday
            { data with
              daily := some
                { time := some (time.set 0 date0)
                  temperature_2m_max := some (maxs.set 0 tmax0)
                  temperature_2m_min := some (mins.set 0 tmin0)
                  weathercode := some (codes.set 0 code0) } }
            place s).state.dom.forecast = s'.dom.forecast) := by
  obtain ⟨h1, h2, h3, h4⟩ := hlen
  obtain ⟨t0, t1, t2, t3, tr, rfl⟩ := exists_four_of_length time h1
  obtain ⟨x0, x1, x2, x3, xr, rfl⟩ := exists_four_of_length maxs h2
  obtain ⟨n0, n1, n2, n3, nr, rfl⟩ := exists_four_of_length mins h3
  obtain ⟨c0, c1, c2, c3, cr, rfl⟩ := exists_four_of_length codes h4
  obtain ⟨cw, hourly, daily⟩ := data
  obtain ⟨dt, dmax, dmin, dcode⟩ := d
  simp only at hw hd ht hmax hmin hcode
  subst hw hd ht hmax hmin hcode
  have hloop := forecastLoop_of_series weekday s.isCelsius (t0 :: t1 :: t2 :: t3 :: tr)
    (x0 :: x1 :: x2 :: x3 :: xr) (n0 :: n1 :: n2 :: n3 :: nr) (c0 :: c1 :: c2 :: c3 :: cr)
  obtain ⟨s', hs', hcards⟩ : ∃ s', displayWeather weekday
      { current_weather := some weather, hourly := hourly,
        daily := some
          { time := some (t0 :: t1 :: t2 :: t3 :: tr),
            temperature_2m_max := some (x0 :: x1 :: x2 :: x3 :: xr),
            temperature_2m_min := some (n0 :: n1 :: n2 :: n3 :: nr),
            weathercode := some (c0 :: c1 :: c2 :: c3 :: cr) } } place s = .normal s' ∧
      s'.dom.forecast =
        [{ dayName := weekday (some t1), emoji := getWeatherEmoji c1,
           min := some (round (convertTemp s.isCelsius n1)),
           max := some (round (convertTemp s.isCelsius x1)) },
         { dayName := weekday (some t2), emoji := getWeatherEmoji c2,
           min := some (round (convertTemp s.isCelsius n2)),
           max := some (round (convertTemp s.isCelsius x2)) },
         { dayName := weekday (some t3), emoji := getWeatherEmoji c3,
           min := some (round (convertTemp s.isCelsius n3)),
           max := some (round (convertTemp s.isCelsius x3)) }] := by
    refine ⟨_, displayWeather_normal_of_series _ _ _ _ _ _ _ _ _, ?_⟩
    rw [displayWeather_state]
    simp [hloop, emojiOf, roundedTemp]
  refine ⟨s', hs', by rw [hcards]; rfl, ?_, ?_⟩
  · intro k hk1 hk3
    rw [hcards]
    interval_cases k
    · exact ⟨t1, x1, n1, c1, by simp, by simp, by simp, by simp, by simp⟩
    · exact ⟨t2, x2, n2, c2, by simp, by simp, by simp, by simp, by simp⟩
    · exact ⟨t3, x3, n3, c3, by simp, by simp, by simp, by simp, by simp⟩
  · intro date0 tmax0 tmin0 code0
    rw [hcards, displayWeather_state]
    simp only [List.set_cons_zero, forecastLoop_of_series]
    simp [emojiOf, roundedTemp]

/-- Witness for C7: a four-day snapshot rendered in Celsius. -/
theorem forecast_three_cards_witness :
    ∃ s', displayWeather (fun _ => "day")
        { current_weather := some { temperature := some 15, weathercode := some 3 }
          daily := some
            { time := some ["d0", "d1", "d2", "d3"]
              temperature_2m_max := some [20, 21, 22, 23]
              temperature_2m_min := some [10, 11, 12, 13]
              weathercode := some [0, 1, 2, 3] } }
        "Paris, France"
        (initialState
          { location := "", temp := "", desc := "", humidity := "", wind := "",
            forecast := [], toggleText := "" })
        = .normal s' ∧ s'.dom.forecast.length = 3 := by
  obtain ⟨s', h1, h2, _⟩ := forecast_three_cards (fun _ => "day")
    { current_weather := some { temperature := some 15, weathercode := some 3 }
      daily := some
        { time := some ["d0", "d1", "d2", "d3"]
          temperature_2m_max := some [20, 21, 22, 23]
          temperature_2m_min := some [10, 11, 12, 13]
          weathercode := some [0, 1, 2, 3] } }
    "Paris, France"
    (initialState
      { location := "", temp := "", desc := "", humidity := "", wind := "",
        forecast := [], toggleText := "" })
    { temperature := some 15, weathercode := some 3 }
    { time := some ["d0", "d1", "d2", "d3"]
      temperature_2m_max := some [20, 21, 22, 23]
      temperature_2m_min := some [10, 11, 12, 13]
      weathercode := some [0, 1, 2, 3] }
    ["d0", "d1", "d2", "d3"] [20, 21, 22, 23] [10, 11, 12, 13] [0, 1, 2, 3]
    rfl rfl rfl rfl rfl rfl (by decide)
  exact ⟨s', h1, h2⟩

/-! ## The stored snapshot -/

theorem round_intCast (n : Int) : round (n : ℚ) = n := by
  unfold round
  rw [Int.floor_eq_iff]
  constructor <;> norm_num

theorem displayWeather_state_currentData (weekday : Option String → String)
    (data : WeatherData) (place : String) (s : AppState) :
    (displayWeather weekday data place s).state.currentData = some data := by
  rw [displayWeather_state]
  cases data.current_weather <;> rfl

theorem getWeather_currentData (weekday : Option String → String) (outcome : WeatherOutcome)
    (place : String) (s : AppState) :
    (getWeather weekday outcome place s).currentData =
      match outcome with
      | .body data => some data
      | _ => s.currentData := by
  cases outcome with
  | transportFailure => rfl
  | badStatus => rfl
  | body data =>
    have hcd := displayWeather_state_currentData weekday data place s
    cases hd : displayWeather weekday data place s with
    | normal s1 =>
      rw [hd] at hcd
      simp only [getWeather, hd]
      exact hcd
    | thrown s1 =>
      rw [hd] at hcd
      simp only [getWeather, hd, paintFailure]
      exact hcd

/-- When every response body of the sequence is fully populated, the stored
snapshot is absent or fully populated after the sequence. -/
theorem snapshot_populated_of_populated_responses (weekday : Option String → String)
    (events : List Event) (s : AppState)
    (hs : ∀ data, s.currentData = some data → fullyPopulated data = true)
    (hev : allResponsesPopulated events = true) :
    ∀ data, (run weekday s events).currentData = some data → fullyPopulated data = true := by
  induction events generalizing s with
  | nil => exact hs
  | cons e rest ih =>
    unfold run
    rw [List.foldl_cons]
    apply ih
    · intro data hd
      cases e with
      | toggle =>
        rw [step, (toggleUnit_fields weekday s).2.1] at hd
        exact hs data hd
      | weather outcome place =>
        rw [step, getWeather_currentData] at hd
        cases outcome with
        | transportFailure => exact hs data hd
        | badStatus => exact hs data hd
        | body d =>
          simp only [Option.some.injEq] at hd
          subst hd
          simp only [allResponsesPopulated, Bool.and_eq_true] at hev
          exact hev.1
    · cases e with
      | toggle => simpa [allResponsesPopulated] using hev
      | weather outcome place =>
        cases outcome with
        | transportFailure => simpa [allResponsesPopulated] using hev
        | badStatus => simpa [allResponsesPopulated] using hev
        | body d =>
          simp only [allResponsesPopulated, Bool.and_eq_true] at hev
          exact hev.2

/-- C10: a response that holds the current weather but no daily series is
not fully populated, yet after `getWeather` handles it from the initial state
it is the stored snapshot; the page shows the failure texts for location,
temperature and description next to the wind and humidity painted from that
response and an emptied forecast; the next unit toggle paints a temperature
from the stored partial snapshot under the failure location. -/
theorem partial_response_is_stored (weekday : Option String → String) (dom : Dom) :
    fullyPopulated partialResponse = false ∧
    (run weekday (initialState dom)
        [.weather (.body partialResponse) "Paris, France"]).currentData
      = some partialResponse ∧
    (run weekday (initialState dom) [.weather (.body partialResponse) "Paris, France"]).dom
      = { location := "Failed to load.", temp := "--", desc := "---",
          humidity := "--", wind := "10", forecast := [],
          toggleText := dom.toggleText } ∧
    (run weekday (initialState dom)
        [.weather (.body partialResponse) "Paris, France", .toggle]).dom.temp
      = "59 \u00c2\u00b0F" ∧
    (run weekday (initialState dom)
        [.weather (.body partialResponse) "Paris, France", .toggle]).dom.location
      = "Failed to load." := by
  have hwind : windText partialWeather = "10" := by
    have h : round (10 : ℚ) = 10 := by exact_mod_cast round_intCast 10
    simp only [windText, partialWeather, Option.getD, h]
    decide
  have htemp : tempText false partialWeather = "59 \u00c2\u00b0F" := by
    have h : round (convertTemp false 15) = 59 := by
      simp only [round, convertTemp]
      norm_num
    simp only [tempText, partialWeather, roundedTemp, Option.map, h]
    decide
  refine ⟨by decide, ?_, ?_, ?_, ?_⟩
  · rfl
  · simp [run, step, getWeather, displayWeather, partialResponse, forecastLoop, forecastCard,
      daysToShow, List.range', paintFailure, initialState, humidityText, hwind]
  · simp [run, step, getWeather, displayWeather, partialResponse, forecastLoop, forecastCard,
      daysToShow, List.range', paintFailure, initialState, toggleUnit, Completion.state, htemp]
  · simp [run, step, getWeather, displayWeather, partialResponse, forecastLoop, forecastCard,
      daysToShow, List.range', paintFailure, initialState, toggleUnit, Completion.state]

end WeatherDashboard
